import Mathlib

/-!
Verification of the Shaken Fist control plane against its specification.

This file gives a shallow embedding of the parts of the code base that the
specification's claims are about:

* the per-object event log (`shakenfist/eventlog.py`): chunked per-month
  sqlite databases, timestamp-keyed rows, collision retry, pruning,
  schema bootstrap and the on-disk sharding layout;
* the `AgentOperation` object (`shakenfist/agentoperation.py`): its state
  transition table and idempotent factory;
* the instance creation endpoint (`shakenfist/external_api/instance.py`)
  and the network creation endpoint (`shakenfist/external_api/app.py`):
  address validation, reservation-conflict handling and scheduler failure
  handling.

Machinery the repository treats as an external collaborator (sqlite row
storage, the etcd store, the scheduler, python's ipaddress parser) is
modelled by explicit pure data (lists of rows, association lists, an
outcome parameter).  Definitions whose python source is not part of the
repository snapshot are modelled from the specification and say so in
their doc comment.
-/

namespace ShakenFist

/-- A row of the `events` table of one event log chunk
(`CREATE_EVENT_TABLE` in eventlog.py).  `timestamp` is the primary key.
Timestamps are modelled as rationals (python floats). -/
structure EventRow where
  timestamp : ℚ
  fqdn : String
  duration : Option ℚ
  message : String
  extra : String
  deriving Repr, DecidableEq

/-- sqlite stores rows of the `events` table in primary key (timestamp)
order; a chunk database is modelled as a list of rows kept in ascending
timestamp order.  This inserts a row at its primary key position. -/
def insertRow (e : EventRow) : List EventRow → List EventRow
  | [] => [e]
  | r :: rest =>
      if e.timestamp < r.timestamp then e :: r :: rest
      else r :: insertRow e rest

/-- Whether the chunk already holds a row with this exact timestamp:
this is the condition under which sqlite raises `IntegrityError` for the
`INSERT` in `EventLogChunk.write_event` (primary key collision). -/
def hasTimestamp (rows : List EventRow) (ts : ℚ) : Bool :=
  rows.any fun r => r.timestamp == ts

/-- The fixed increment `EventLogChunk.write_event` nudges a colliding
timestamp forward by (`timestamp += 0.00001`, eventlog.py line 344). -/
def nudge : ℚ := 1 / 100000

namespace EventLogChunk

/-- The retry loop of `EventLogChunk.write_event` (eventlog.py lines
333-345): `while attempts < 3`, insert, and on `IntegrityError`
(primary key collision) advance the timestamp by `nudge`
(`timestamp += 0.00001`) and try again.  The first argument of the
recursion is the remaining fuel (`3 - attempts`), the second is the
current, possibly already nudged, timestamp.  Falling out of the loop
logs the failure and drops the write (lines 347-353): the chunk is
returned unchanged and no exception reaches the caller. -/
def writeEventAttempt (rows : List EventRow) (fqdn : String)
    (duration : Option ℚ) (message extra : String) :
    ℕ → ℚ → List EventRow
  | 0, _ => rows
  | fuel + 1, ts =>
      if hasTimestamp rows ts then
        writeEventAttempt rows fqdn duration message extra fuel
          (ts + nudge)
      else
        insertRow ⟨ts, fqdn, duration, message, extra⟩ rows

/-- `EventLogChunk.write_event(timestamp, fqdn, duration, message, extra)`
(eventlog.py lines 332-353). -/
def write_event (rows : List EventRow) (ts : ℚ) (fqdn : String)
    (duration : Option ℚ) (message extra : String) : List EventRow :=
  writeEventAttempt rows fqdn duration message extra 3 ts

end EventLogChunk

/-- C3: when `write_event` hits a primary-key collision it nudges the
timestamp forward by the fixed increment `nudge` and retries in-process,
making at most 3 attempts in total; the row written is the first of
`ts`, `ts + nudge`, `ts + 2 * nudge` that is free, and if all three
attempts collide the write is dropped (the chunk is unchanged) — being a
total function, no exception reaches the caller. -/
theorem write_event_retries_three_attempts_then_drops
    (rows : List EventRow) (ts : ℚ) (fqdn : String) (duration : Option ℚ)
    (message extra : String) :
    EventLogChunk.write_event rows ts fqdn duration message extra =
      match (List.range 3).find?
          (fun k => ! hasTimestamp rows (ts + k * nudge)) with
      | some k =>
          insertRow ⟨ts + k * nudge, fqdn, duration, message, extra⟩ rows
      | none => rows := by
  have hrange : List.range 3 = [0, 1, 2] := rfl
  have e2 : ts + (2 : ℚ) * nudge = ts + nudge + nudge := by ring
  rw [hrange]
  cases h0 : hasTimestamp rows ts <;>
    cases h1 : hasTimestamp rows (ts + nudge) <;>
      cases h2 : hasTimestamp rows (ts + nudge + nudge) <;>
        simp [EventLogChunk.write_event, EventLogChunk.writeEventAttempt,
          List.find?, e2, h0, h1, h2]

/-- The chunk files present on disk for one object: an association of
(year, month) to the rows of that month's chunk database.  `EventLog`
calls this set of files the chain of `EventLogChunk`s. -/
abbrev ChunkStore := List ((ℕ × ℕ) × List EventRow)

/-- The numeric value of the zero-padded chunk name
`'%04d%02d' % (year, month)`; sorting these names as strings (as
`EventLog._get_all_chunks` does) sorts by this code. -/
def ymCode (ym : ℕ × ℕ) : ℕ := ym.1 * 100 + ym.2

/-- Chunk order used by `EventLog._get_all_chunks` (eventlog.py line
177): `sorted(yearmonths, reverse=True)` — newest month first. -/
def chunkNewer (a b : (ℕ × ℕ) × List EventRow) : Prop :=
  ymCode b.1 ≤ ymCode a.1

instance : DecidableRel chunkNewer := fun _ _ => Nat.decLe _ _

instance : IsTotal ((ℕ × ℕ) × List EventRow) chunkNewer :=
  ⟨fun a b => Nat.le_total (ymCode b.1) (ymCode a.1)⟩

instance : IsTrans ((ℕ × ℕ) × List EventRow) chunkNewer :=
  ⟨fun _ _ _ hab hbc => le_trans hbc hab⟩

/-- `EventLog._get_all_chunks` (eventlog.py lines 165-180): enumerate
the object's chunk files and yield their (year, month) keys sorted
newest first. -/
def getAllChunks (store : ChunkStore) : ChunkStore :=
  store.insertionSort chunkNewer

/-- `SELECT * FROM events ORDER BY TIMESTAMP DESC` row order. -/
def rowNewer (a b : EventRow) : Prop := b.timestamp ≤ a.timestamp

instance : DecidableRel rowNewer := fun a b =>
  inferInstanceAs (Decidable (b.timestamp ≤ a.timestamp))

/-- `EventLogChunk.read_events(limit)` (eventlog.py lines 355-360):
all rows ordered by timestamp descending, limited. -/
def EventLogChunk.read_events (rows : List EventRow) (limit : ℕ) :
    List EventRow :=
  (rows.insertionSort rowNewer).take limit

/-- The accumulation loop of `EventLog.read_events` (eventlog.py lines
184-194), exactly as written: `events` starts empty, and for each chunk
(newest first) the code runs `events.append(elc.read_events(limit=(limit
- len(events))))` — appending the chunk's result as a single element —
then returns early once `len(events) >= limit`.  Because of the
`append`, the accumulator is a list of per-chunk row lists (in python, a
list of generator objects), and `len(events)` counts chunks, not rows. -/
def readEventsLoop (limit : ℕ) (events : List (List EventRow)) :
    ChunkStore → List (List EventRow)
  | [] => events
  | c :: rest =>
      let events2 :=
        events ++ [EventLogChunk.read_events c.2 (limit - events.length)]
      if limit ≤ events2.length then events2
      else readEventsLoop limit events2 rest

/-- `EventLog.read_events(limit=100)` (eventlog.py lines 182-194). -/
def EventLog.read_events (store : ChunkStore) (limit : ℕ) :
    List (List EventRow) :=
  readEventsLoop limit [] (getAllChunks store)

/-- Look up the rows of the chunk for a (year, month), an empty chunk
database if the file does not exist yet. -/
def getChunk (store : ChunkStore) (ym : ℕ × ℕ) : List EventRow :=
  match store.find? (fun c => c.1 == ym) with
  | some c => c.2
  | none => []

/-- Replace (or create) the chunk for a (year, month). -/
def setChunk : ChunkStore → ℕ × ℕ → List EventRow → ChunkStore
  | [], ym, rows => [(ym, rows)]
  | c :: rest, ym, rows =>
      if c.1 = ym then (ym, rows) :: rest
      else c :: setChunk rest ym rows

/-- `EventLog.write_event` (eventlog.py lines 158-163): under the
object's lock, route the event to the chunk for the timestamp's
(year, month) and let the chunk write it.  The calendar conversion
`_timestamp_to_year_month` (python's `datetime.fromtimestamp`) is an
external collaborator and is passed in as `tsYM`. -/
def EventLog.write_event (tsYM : ℚ → ℕ × ℕ) (store : ChunkStore)
    (ts : ℚ) (fqdn : String) (duration : Option ℚ)
    (message extra : String) : ChunkStore :=
  let ym := tsYM ts
  setChunk store ym
    (EventLogChunk.write_event (getChunk store ym) ts fqdn duration
      message extra)

/-- The row filter of the DELETE in `EventLogChunk.prune_old_events`
(eventlog.py lines 374-376): `timestamp < before_timestamp`, plus a
message equality term when a message filter was given. -/
def pruneMatches (before : ℚ) (message : Option String)
    (r : EventRow) : Bool :=
  r.timestamp < before &&
    match message with
    | none => true
    | some m => r.message == m

/-- `DELETE ... LIMIT n` in sqlite with no ORDER BY walks the table in
primary key (timestamp) order, deleting matching rows until `n` have
been removed.  Returns the remaining rows and the deletion count
(`SELECT CHANGES()`). -/
def deleteLimit (before : ℚ) (message : Option String) :
    List EventRow → ℕ → List EventRow × ℕ
  | [], _ => ([], 0)
  | r :: rest, n =>
      if n = 0 then (r :: rest, 0)
      else if pruneMatches before message r then
        let p := deleteLimit before message rest (n - 1)
        (p.1, p.2 + 1)
      else
        let p := deleteLimit before message rest n
        (r :: p.1, p.2)

/-- `EventLogChunk.prune_old_events(before_timestamp, message, limit)`
(eventlog.py lines 373-391): delete matching rows bounded by `limit`,
report the count, and run VACUUM exactly when `changes == limit`.
Returns (remaining rows, count, vacuumed). -/
def EventLogChunk.prune_old_events (rows : List EventRow) (before : ℚ)
    (message : Option String) (limit : ℕ) :
    List EventRow × ℕ × Bool :=
  let p := deleteLimit before message rows limit
  (p.1, p.2, p.2 == limit)

/-- The loop of `EventLog.prune_old_events` (eventlog.py lines 207-220):
walk the given chunk sequence, giving each chunk the residual limit
`limit - removed`, and return early once `removed >= limit`.  Chunks not
reached are left untouched.  Returns the updated chunks and the total
number of rows removed.  (The repeated
`EventLogChunk.prune_old_events ...` subterm is the result of the single
`elc.prune_old_events` call of the python loop body.) -/
def pruneLoop (before : ℚ) (message : Option String) (limit : ℕ) :
    ChunkStore → ℕ → ChunkStore × ℕ
  | [], removed => ([], removed)
  | c :: rest, removed =>
      if limit ≤ removed +
          (EventLogChunk.prune_old_events c.2 before message
            (limit - removed)).2.1 then
        ((c.1, (EventLogChunk.prune_old_events c.2 before message
            (limit - removed)).1) :: rest,
         removed + (EventLogChunk.prune_old_events c.2 before message
            (limit - removed)).2.1)
      else
        ((c.1, (EventLogChunk.prune_old_events c.2 before message
            (limit - removed)).1) ::
          (pruneLoop before message limit rest
            (removed + (EventLogChunk.prune_old_events c.2 before message
              (limit - removed)).2.1)).1,
         (pruneLoop before message limit rest
           (removed + (EventLogChunk.prune_old_events c.2 before message
             (limit - removed)).2.1)).2)

/-- `EventLog.prune_old_events` (eventlog.py lines 207-220), which
iterates `self._get_all_chunks()` — the newest-month-first order. -/
def EventLog.prune_old_events (store : ChunkStore) (before : ℚ)
    (message : Option String) (limit : ℕ) : ChunkStore × ℕ :=
  pruneLoop before message limit (getAllChunks store) 0

/-- Follows the claim's words, for comparison with the definition taken
from the source: the identical accumulation but with the chunks visited
oldest-affected-first, as the specification describes
`prune_old_events`. -/
def EventLog.prune_old_events_oldest_first (store : ChunkStore)
    (before : ℚ) (message : Option String) (limit : ℕ) :
    ChunkStore × ℕ :=
  pruneLoop before message limit (getAllChunks store).reverse 0

/-- Total number of event rows held in an object's chunk store. -/
def totalRows (store : ChunkStore) : ℕ :=
  (store.map fun c => c.2.length).sum

/-- Calendar conversion used by the concrete event-log scenarios below:
timestamps below 15 fall in January 2023, later ones in February 2023
(`datetime.fromtimestamp` is monotone in the timestamp). -/
def demoYM (ts : ℚ) : ℕ × ℕ := if ts < 15 then (2023, 1) else (2023, 2)

/-- Three events with pairwise-distinct timestamps written to a single
object through `EventLog.write_event`, landing in two month chunks. -/
def c2store : ChunkStore :=
  EventLog.write_event demoYM
    (EventLog.write_event demoYM
      (EventLog.write_event demoYM [] 10 "n1" none "one" "")
      20 "n1" none "two" "")
    30 "n1" none "three" ""

/-- C2: evaluation of `EventLog.read_events` at the failing input.  The
three events written to `c2store` with distinct timestamps should, per
the claim, be returned as three rows ordered newest first when
`limit >= 3`.  Instead `read_events` appends each chunk's result as a
single element (`events.append(...)`, eventlog.py line 188), so the call
returns a two-element list of per-chunk row lists (in python, of
generator objects over already-closed connections), and its length
counts chunks, not events. -/
theorem read_events_nests_rows_per_chunk :
    c2store = [((2023, 1), [⟨10, "n1", none, "one", ""⟩]),
               ((2023, 2), [⟨20, "n1", none, "two", ""⟩,
                            ⟨30, "n1", none, "three", ""⟩])] ∧
    EventLog.read_events c2store 100 =
      [[⟨30, "n1", none, "three", ""⟩, ⟨20, "n1", none, "two", ""⟩],
       [⟨10, "n1", none, "one", ""⟩]] ∧
    (EventLog.read_events c2store 100).length ≠ 3 := by
  refine ⟨by decide, by decide, by decide⟩

/-- Four events across two month chunks, all older than timestamp 10:
the input refuting C6's visiting order. -/
def c6store : ChunkStore :=
  [((2023, 1), [⟨1, "n1", none, "old-jan", ""⟩,
                ⟨2, "n1", none, "old-jan", ""⟩]),
   ((2023, 2), [⟨3, "n1", none, "old-feb", ""⟩,
                ⟨4, "n1", none, "old-feb", ""⟩])]

/-- C6 counterexample: `EventLog.prune_old_events` does not visit chunks
oldest-affected-first.  With four prunable rows split across January and
February and a call-wide limit of 2, the code (which iterates
`_get_all_chunks()`, sorted newest first) consumes the whole limit on
the February chunk and leaves January untouched, while the
oldest-affected-first traversal the claim describes would delete the two
January rows and leave February untouched. -/
theorem prune_old_events_visits_newest_chunk_first :
    EventLog.prune_old_events c6store 10 none 2 =
      ([((2023, 2), []),
        ((2023, 1), [⟨1, "n1", none, "old-jan", ""⟩,
                     ⟨2, "n1", none, "old-jan", ""⟩])], 2) ∧
    EventLog.prune_old_events_oldest_first c6store 10 none 2 =
      ([((2023, 1), []),
        ((2023, 2), [⟨3, "n1", none, "old-feb", ""⟩,
                     ⟨4, "n1", none, "old-feb", ""⟩])], 2) ∧
    EventLog.prune_old_events c6store 10 none 2 ≠
      EventLog.prune_old_events_oldest_first c6store 10 none 2 := by
  refine ⟨by decide, by decide, by decide⟩

theorem deleteLimit_count_le (before : ℚ) (message : Option String) :
    ∀ (rows : List EventRow) (n : ℕ),
      (deleteLimit before message rows n).2 ≤ n := by
  intro rows
  induction rows with
  | nil => intro n; simp [deleteLimit]
  | cons r rest ih =>
      intro n
      by_cases h0 : n = 0
      · subst h0; simp [deleteLimit]
      · by_cases hm : pruneMatches before message r = true
        · have := ih (n - 1)
          simp [deleteLimit, h0, hm]
          omega
        · have := ih n
          simp [deleteLimit, h0, hm]
          omega

theorem deleteLimit_length (before : ℚ) (message : Option String) :
    ∀ (rows : List EventRow) (n : ℕ),
      rows.length =
        (deleteLimit before message rows n).1.length +
          (deleteLimit before message rows n).2 := by
  intro rows
  induction rows with
  | nil => intro n; simp [deleteLimit]
  | cons r rest ih =>
      intro n
      by_cases h0 : n = 0
      · subst h0; simp [deleteLimit]
      · by_cases hm : pruneMatches before message r = true
        · have := ih (n - 1)
          simp [deleteLimit, h0, hm]
          omega
        · have := ih n
          simp [deleteLimit, h0, hm]
          omega

theorem chunkPrune_remaining (rows : List EventRow) (before : ℚ)
    (message : Option String) (limit : ℕ) :
    (EventLogChunk.prune_old_events rows before message limit).1 =
      (deleteLimit before message rows limit).1 := rfl

theorem chunkPrune_count (rows : List EventRow) (before : ℚ)
    (message : Option String) (limit : ℕ) :
    (EventLogChunk.prune_old_events rows before message limit).2.1 =
      (deleteLimit before message rows limit).2 := rfl

theorem chunkPrune_vacuum (rows : List EventRow) (before : ℚ)
    (message : Option String) (limit : ℕ) :
    (EventLogChunk.prune_old_events rows before message limit).2.2 =
      ((deleteLimit before message rows limit).2 == limit) := rfl

theorem pruneLoop_removed_le (before : ℚ) (message : Option String)
    (limit : ℕ) :
    ∀ (chunks : ChunkStore) (removed : ℕ), removed ≤ limit →
      (pruneLoop before message limit chunks removed).2 ≤ limit := by
  intro chunks
  induction chunks with
  | nil => intro removed h; simpa [pruneLoop] using h
  | cons c rest ih =>
      intro removed h
      have hcount := deleteLimit_count_le before message c.2
        (limit - removed)
      simp only [pruneLoop, chunkPrune_count]
      by_cases hret : limit ≤ removed +
          (deleteLimit before message c.2 (limit - removed)).2
      · simp only [hret, if_true]
        omega
      · simp only [hret, if_false]
        exact ih _ (by omega)

theorem pruneLoop_total (before : ℚ) (message : Option String)
    (limit : ℕ) :
    ∀ (chunks : ChunkStore) (removed : ℕ),
      totalRows chunks + removed =
        totalRows (pruneLoop before message limit chunks removed).1 +
          (pruneLoop before message limit chunks removed).2 := by
  intro chunks
  induction chunks with
  | nil => intro removed; simp [pruneLoop, totalRows]
  | cons c rest ih =>
      intro removed
      have hlen := deleteLimit_length before message c.2 (limit - removed)
      simp only [pruneLoop, chunkPrune_count, chunkPrune_remaining]
      by_cases hret : limit ≤ removed +
          (deleteLimit before message c.2 (limit - removed)).2
      · simp only [hret, if_true, totalRows, List.map_cons,
          List.sum_cons]
        omega
      · have := ih (removed +
          (deleteLimit before message c.2 (limit - removed)).2)
        simp only [hret, if_false, totalRows, List.map_cons,
          List.sum_cons] at this ⊢
        omega

/-- C6 (amended): `prune_old_events` visits the object's chunks
newest-month-first (the order `_get_all_chunks` yields is a permutation
of the store sorted newest first); summed across the whole call it
deletes at most `limit` rows; it returns exactly the total number of
rows it removed; and a chunk runs its VACUUM pass exactly when that
chunk's own deletion count equals the per-chunk limit it was given. -/
theorem prune_old_events_newest_first_bounded (store : ChunkStore)
    (before : ℚ) (message : Option String) (limit : ℕ) :
    (getAllChunks store).Perm store ∧
    List.Sorted chunkNewer (getAllChunks store) ∧
    (EventLog.prune_old_events store before message limit).2 ≤ limit ∧
    totalRows store =
      totalRows (EventLog.prune_old_events store before message limit).1 +
        (EventLog.prune_old_events store before message limit).2 ∧
    ∀ (rows : List EventRow) (l : ℕ),
      ((EventLogChunk.prune_old_events rows before message l).2.2 = true ↔
        (EventLogChunk.prune_old_events rows before message l).2.1 = l) := by
  have hperm : (getAllChunks store).Perm store :=
    List.perm_insertionSort chunkNewer store
  have htot : totalRows (getAllChunks store) = totalRows store :=
    List.Perm.sum_eq (hperm.map fun c => c.2.length)
  refine ⟨hperm, List.sorted_insertionSort chunkNewer store, ?_, ?_, ?_⟩
  · exact pruneLoop_removed_le before message limit _ 0 (Nat.zero_le _)
  · have := pruneLoop_total before message limit (getAllChunks store) 0
    simp only [EventLog.prune_old_events]
    omega
  · intro rows l
    simp [chunkPrune_vacuum, chunkPrune_count]

/-- The schema version a chunk database is currently expected to carry
(`VERSION`, eventlog.py line 224). -/
def VERSION : ℕ := 4

/-- Audit messages inserted by the `_bootstrap` upgrade steps
(eventlog.py lines 283-325).  Rows inserted by the upgrade code carry
only a timestamp and a message; the other columns are NULL, modelled as
`""`/`none`. -/
def msgUpgradeV2 : String := "Upgraded database to version 2"

def msgUpgradeV3 : String := "Upgraded database to version 3"

def msgUpgradeV4 : String := "Upgraded database to version 4"

def msgCompacted : String := "Compacted database"

def msgNodeResources : String := "Updated node resources"

def msgNodeResourcesPkg : String :=
  "Updated node resources and package versions"

/-- State of one chunk's sqlite database as `_bootstrap` finds it:
`version = none` models the absence of a `version` table (a fresh
database file); otherwise the stored schema version. -/
structure ChunkDB where
  version : Option ℕ
  events : List EventRow
  deriving Repr, DecidableEq

/-- Intermediate state threaded through the `_bootstrap` upgrade steps:
the in-progress version, the rows, and the index of the next
`time.time()` call whose value is stored in the database. -/
structure UpgradeState where
  ver : ℕ
  rows : List EventRow
  clk : ℕ
  deriving Repr, DecidableEq

/-- The `if ver == 1` step of `_bootstrap` (eventlog.py lines 277-286):
add the `extra` column and insert the version-2 audit event. -/
def stepV1toV2 (clock : ℕ → ℚ) (s : UpgradeState) : UpgradeState :=
  if s.ver = 1 then
    ⟨2, insertRow ⟨clock s.clk, "", none, msgUpgradeV2, ""⟩ s.rows,
     s.clk + 1⟩
  else s

/-- The `if self.objtype == 'node': DELETE ...` clause shared by the
version-2 and version-3 steps (eventlog.py lines 291-295 and 306-310):
drop old node-resource events whose timestamp is older than
`time.time() - config.MAX_NODE_RESOURCE_EVENT_AGE`. -/
def nodePrune (objtype : String) (age : ℚ) (clock : ℕ → ℚ)
    (msg : String) (s : UpgradeState) : UpgradeState :=
  if objtype = "node" then
    ⟨s.ver,
     s.rows.filter fun r =>
       !(decide (r.timestamp < clock s.clk - age) && r.message == msg),
     s.clk + 1⟩
  else s

/-- The `if ver == 2` step of `_bootstrap` (eventlog.py lines 288-301). -/
def stepV2toV3 (objtype : String) (age : ℚ) (clock : ℕ → ℚ)
    (s : UpgradeState) : UpgradeState :=
  if s.ver = 2 then
    let t := nodePrune objtype age clock msgNodeResources s
    ⟨3, insertRow ⟨clock t.clk, "", none, msgUpgradeV3, ""⟩ t.rows,
     t.clk + 1⟩
  else s

/-- The `if ver == 3` step of `_bootstrap` (eventlog.py lines 303-316). -/
def stepV3toV4 (objtype : String) (age : ℚ) (clock : ℕ → ℚ)
    (s : UpgradeState) : UpgradeState :=
  if s.ver = 3 then
    let t := nodePrune objtype age clock msgNodeResourcesPkg s
    ⟨4, insertRow ⟨clock t.clk, "", none, msgUpgradeV4, ""⟩ t.rows,
     t.clk + 1⟩
  else s

/-- `EventLogChunk._bootstrap` (eventlog.py lines 251-327).  With no
`version` table present the events and version tables are created
(`CREATE TABLE IF NOT EXISTS`) and stamped directly with the current
`VERSION` — no upgrade steps and no VACUUM.  Otherwise the three
conditional upgrade steps run in order, and if the version changed at
all the new version is written, the database is VACUUMed and a
compaction audit event is inserted (lines 318-327).  Returns the
resulting database and whether VACUUM ran. -/
def EventLogChunk.bootstrap (objtype : String) (age : ℚ)
    (clock : ℕ → ℚ) (db : ChunkDB) : ChunkDB × Bool :=
  match db.version with
  | none => (⟨some VERSION, db.events⟩, false)
  | some startVer =>
      let s := stepV3toV4 objtype age clock
        (stepV2toV3 objtype age clock
          (stepV1toV2 clock ⟨startVer, db.events, 0⟩))
      if startVer ≠ s.ver then
        (⟨some s.ver,
          insertRow ⟨clock s.clk, "", none, msgCompacted, ""⟩ s.rows⟩,
         true)
      else (⟨some s.ver, s.rows⟩, false)

/-- C7: opening a chunk whose stored schema version is older than the
current version 4 applies each upgrade step in order (1→2, 2→3, 3→4),
inserting one audit event per step taken; whenever the version changed
at all the new version is written, the database is compacted and a
compaction event is recorded; a chunk with no version table is created
directly at version 4 with no upgrade steps and no compaction; a chunk
already at version 4 is untouched.  (Stated away from the node-specific
event expiry clause, which the claim does not concern.) -/
theorem bootstrap_upgrades_in_order_and_compacts (objtype : String)
    (age : ℚ) (clock : ℕ → ℚ) (evs : List EventRow)
    (hnode : objtype ≠ "node") :
    EventLogChunk.bootstrap objtype age clock ⟨none, evs⟩ =
      (⟨some 4, evs⟩, false) ∧
    EventLogChunk.bootstrap objtype age clock ⟨some 1, evs⟩ =
      (⟨some 4,
        insertRow ⟨clock 3, "", none, msgCompacted, ""⟩
          (insertRow ⟨clock 2, "", none, msgUpgradeV4, ""⟩
            (insertRow ⟨clock 1, "", none, msgUpgradeV3, ""⟩
              (insertRow ⟨clock 0, "", none, msgUpgradeV2, ""⟩ evs)))⟩,
       true) ∧
    EventLogChunk.bootstrap objtype age clock ⟨some 2, evs⟩ =
      (⟨some 4,
        insertRow ⟨clock 2, "", none, msgCompacted, ""⟩
          (insertRow ⟨clock 1, "", none, msgUpgradeV4, ""⟩
            (insertRow ⟨clock 0, "", none, msgUpgradeV3, ""⟩ evs))⟩,
       true) ∧
    EventLogChunk.bootstrap objtype age clock ⟨some 3, evs⟩ =
      (⟨some 4,
        insertRow ⟨clock 1, "", none, msgCompacted, ""⟩
          (insertRow ⟨clock 0, "", none, msgUpgradeV4, ""⟩ evs)⟩,
       true) ∧
    EventLogChunk.bootstrap objtype age clock ⟨some 4, evs⟩ =
      (⟨some 4, evs⟩, false) := by
  refine ⟨rfl, ?_, ?_, ?_, ?_⟩ <;>
    simp [EventLogChunk.bootstrap, stepV1toV2, stepV2toV3, stepV3toV4,
      nodePrune, hnode, VERSION]

/-- Witness for C7: the upgrade characterisation applied to a concrete
non-node chunk at version 3 holding one row. -/
theorem bootstrap_upgrades_in_order_and_compacts_witness :
    EventLogChunk.bootstrap "instance" 0 (fun k => (100 + k : ℚ))
        ⟨some 3, [⟨7, "n1", none, "boot", ""⟩]⟩ =
      (⟨some 4, [⟨7, "n1", none, "boot", ""⟩,
                 ⟨100, "", none, msgUpgradeV4, ""⟩,
                 ⟨101, "", none, msgCompacted, ""⟩]⟩, true) := by
  have h := bootstrap_upgrades_in_order_and_compacts "instance" 0
    (fun k => (100 + k : ℚ)) [⟨7, "n1", none, "boot", ""⟩]
    (by decide)
  refine h.2.2.2.1.trans ?_
  norm_num [insertRow]

/-! ## DatabaseBackedObject state machine and AgentOperation -/

/-- State name constants of `DatabaseBackedObject` (referenced from
agentoperation.py as `dbo.STATE_CREATED` etc.; baseobject.py is not part
of the source snapshot, the lower-case state names follow the
specification's scenarios, e.g. spec section 8). -/
def STATE_CREATED : String := "created"

def STATE_DELETED : String := "deleted"

def STATE_ERROR : String := "error"

/-- `AgentOperation.STATE_QUEUED` (agentoperation.py line 19). -/
def STATE_QUEUED : String := "queued"

/-- `AgentOperation.STATE_EXECUTING` (agentoperation.py line 20). -/
def STATE_EXECUTING : String := "executing"

/-- `AgentOperation.STATE_COMPLETE` (agentoperation.py line 21). -/
def STATE_COMPLETE : String := "complete"

/-- `AgentOperation.state_targets` (agentoperation.py lines 25-31), the
declared transition table: the allowed target set per current stored
state, with `none` the initial pseudo-state (python `None`).  The dict
value `None` for `deleted` (a terminal state) and a missing key both
admit no targets. -/
def AgentOperation.state_targets : Option String → List String
  | none => [STATE_CREATED, STATE_ERROR]
  | some s =>
      if s = STATE_CREATED then [STATE_DELETED, STATE_ERROR, STATE_QUEUED]
      else if s = STATE_QUEUED then
        [STATE_DELETED, STATE_ERROR, STATE_EXECUTING]
      else if s = STATE_EXECUTING then
        [STATE_DELETED, STATE_ERROR, STATE_COMPLETE]
      else []

/-- The state-bearing attributes of a `DatabaseBackedObject`: the stored
lifecycle state name (`none` before the first transition) and the
timestamp of the last state change. -/
structure ObjState where
  state : Option String
  state_updated_at : Option ℚ
  deriving Repr, DecidableEq

/-- The error raised for a transition not in the table. -/
inductive LifecycleError
  | InvalidLifecycleState
  deriving Repr, DecidableEq

/-- Modelled from the spec: the `state` setter of
`DatabaseBackedObject` (baseobject.py is not part of the source
snapshot).  Spec section 4.1: read the current stored state, verify the
requested target is in the allowed-target set for the current state and
fail with `InvalidLifecycleState` otherwise, or write the new state plus
an updated timestamp via a single atomic write (a state-change event is
also appended, not modelled here).  Returns the stored attributes after
the attempt together with the error, if any: on failure the stored
attributes are returned unchanged. -/
def db_set_state (targets : Option String → List String)
    (cur : ObjState) (target : String) (now : ℚ) :
    ObjState × Option LifecycleError :=
  if target ∈ targets cur.state then (⟨some target, some now⟩, none)
  else (cur, some .InvalidLifecycleState)

/-- C1: for every stored current state of an `AgentOperation`,
attempting to set the state to a target not present in
`AgentOperation.state_targets` for that state fails with
`InvalidLifecycleState` and leaves the stored state and
`state_updated_at` untouched; and the initial pseudo-state `None`
admits exactly the `created` and `error` targets. -/
theorem set_state_rejects_illegal_transition (cur : ObjState)
    (target : String) (now : ℚ)
    (h : target ∉ AgentOperation.state_targets cur.state) :
    db_set_state AgentOperation.state_targets cur target now =
      (cur, some .InvalidLifecycleState) ∧
    AgentOperation.state_targets none = [STATE_CREATED, STATE_ERROR] := by
  exact ⟨by simp [db_set_state, h], rfl⟩

/-- Witness for C1: an operation in state `created` cannot jump straight
to `complete`; the stored state and timestamp survive the attempt. -/
theorem set_state_rejects_illegal_transition_witness :
    STATE_COMPLETE ∉
      AgentOperation.state_targets (some STATE_CREATED) ∧
    db_set_state AgentOperation.state_targets
        ⟨some STATE_CREATED, some 5⟩ STATE_COMPLETE 7 =
      (⟨some STATE_CREATED, some 5⟩,
       some LifecycleError.InvalidLifecycleState) := by
  refine ⟨by decide, ?_⟩
  exact (set_state_rejects_illegal_transition
    ⟨some STATE_CREATED, some 5⟩ STATE_COMPLETE 7 (by decide)).1

/-- The static values stored for an `AgentOperation` by
`AgentOperation.new` (agentoperation.py lines 49-55) together with the
object's state attributes.  `commands` is an opaque payload. -/
structure AgentOperationRecord where
  uuid : String
  nspace : String
  instance_uuid : String
  commands : String
  version : ℕ
  obj : ObjState
  deriving Repr, DecidableEq

/-- The etcd keyspace for agentoperation objects, keyed by uuid. -/
abbrev AgentOperationStore := List (String × AgentOperationRecord)

/-- `AgentOperation.from_db`: look the record up by uuid.  (Modelled
from the spec: the distributed store is a key-value store read by key,
spec section 6; baseobject.py is not part of the source snapshot.) -/
def AgentOperation.from_db (store : AgentOperationStore) (u : String) :
    Option AgentOperationRecord :=
  match store.find? fun e => e.1 == u with
  | some e => some e.2
  | none => none

/-- Modelled from the spec: `_db_create` performs an atomic
create-if-absent write (spec sections 3 and 6; baseobject.py is not part
of the source snapshot). -/
def AgentOperation.db_create (store : AgentOperationStore) (u : String)
    (r : AgentOperationRecord) : AgentOperationStore :=
  match store.find? fun e => e.1 == u with
  | some _ => store
  | none => store ++ [(u, r)]

/-- Persist a mutated record back under its uuid. -/
def setRecord : AgentOperationStore → String → AgentOperationRecord →
    AgentOperationStore
  | [], _, _ => []
  | e :: rest, u, r =>
      if e.1 = u then (u, r) :: rest else e :: setRecord rest u r

/-- `AgentOperation.current_version` (agentoperation.py line 17). -/
def AgentOperation.current_version : ℕ := 1

/-- `AgentOperation.new(operation_uuid, namespace, instance_uuid,
commands)` (agentoperation.py lines 43-58): if `from_db` already finds
the uuid, return that object as is; otherwise `_db_create` the static
values, re-read the object, set its state to `created` (the initial
transition) and return it.  Returns the store after the call and the
returned object (`none` only on the unreachable re-read failure). -/
def AgentOperation.new (store : AgentOperationStore)
    (operation_uuid nspace instance_uuid commands : String) (now : ℚ) :
    AgentOperationStore × Option AgentOperationRecord :=
  match AgentOperation.from_db store operation_uuid with
  | some o => (store, some o)
  | none =>
      let store2 := AgentOperation.db_create store operation_uuid
        ⟨operation_uuid, nspace, instance_uuid, commands,
         AgentOperation.current_version, ⟨none, none⟩⟩
      match AgentOperation.from_db store2 operation_uuid with
      | none => (store2, none)
      | some o =>
          let p := db_set_state AgentOperation.state_targets o.obj
            STATE_CREATED now
          let o2 := { o with obj := p.1 }
          (setRecord store2 operation_uuid o2, some o2)

theorem from_db_append_self (u : String) (r : AgentOperationRecord) :
    ∀ (store : AgentOperationStore),
      AgentOperation.from_db store u = none →
      AgentOperation.from_db (store ++ [(u, r)]) u = some r := by
  intro store
  induction store with
  | nil => intro _; simp [AgentOperation.from_db]
  | cons e rest ih =>
      intro h
      by_cases he : (e.1 == u) = true
      · exfalso
        unfold AgentOperation.from_db at h
        simp only [List.find?] at h
        rw [he] at h
        simp at h
      · have he2 : (e.1 == u) = false := by simpa using he
        unfold AgentOperation.from_db at h ⊢
        simp only [List.find?] at h
        rw [he2] at h
        rw [List.cons_append]
        simp only [List.find?]
        rw [he2]
        exact ih h

theorem setRecord_append_self (u : String)
    (r0 r1 : AgentOperationRecord) :
    ∀ (store : AgentOperationStore),
      AgentOperation.from_db store u = none →
      setRecord (store ++ [(u, r0)]) u r1 = store ++ [(u, r1)] := by
  intro store
  induction store with
  | nil => intro _; simp [setRecord]
  | cons e rest ih =>
      intro h
      by_cases he : (e.1 == u) = true
      · exfalso
        unfold AgentOperation.from_db at h
        simp only [List.find?] at h
        rw [he] at h
        simp at h
      · have he2 : (e.1 == u) = false := by simpa using he
        have he3 : ¬(e.1 = u) := by simpa using he
        unfold AgentOperation.from_db at h
        simp only [List.find?] at h
        rw [he2] at h
        rw [List.cons_append]
        simp only [setRecord, if_neg he3]
        rw [ih h]
        simp

/-- C9: `AgentOperation.new` is idempotent in the operation uuid.  If a
record with the uuid exists, `new` returns it as stored — no field is
overwritten and no state transition is re-run (the store is unchanged).
Only when the uuid is absent does it create the record with the given
static values and version 1 and set the state to `created`. -/
theorem agentoperation_new_idempotent (store : AgentOperationStore)
    (u nspace instance_uuid commands : String) (now : ℚ) :
    (∀ r, AgentOperation.from_db store u = some r →
      AgentOperation.new store u nspace instance_uuid commands now =
        (store, some r)) ∧
    (AgentOperation.from_db store u = none →
      AgentOperation.new store u nspace instance_uuid commands now =
        (store ++ [(u, ⟨u, nspace, instance_uuid, commands,
            AgentOperation.current_version,
            ⟨some STATE_CREATED, some now⟩⟩)],
         some ⟨u, nspace, instance_uuid, commands,
            AgentOperation.current_version,
            ⟨some STATE_CREATED, some now⟩⟩)) := by
  constructor
  · intro r hr
    simp [AgentOperation.new, hr]
  · intro h
    have hcreate : AgentOperation.db_create store u
        ⟨u, nspace, instance_uuid, commands,
         AgentOperation.current_version, ⟨none, none⟩⟩ =
        store ++ [(u, ⟨u, nspace, instance_uuid, commands,
          AgentOperation.current_version, ⟨none, none⟩⟩)] := by
      unfold AgentOperation.db_create
      unfold AgentOperation.from_db at h
      cases hf : store.find? fun e => e.1 == u with
      | none => rfl
      | some e => rw [hf] at h; simp at h
    have hread := from_db_append_self u
      ⟨u, nspace, instance_uuid, commands,
       AgentOperation.current_version, ⟨none, none⟩⟩ store h
    have hset := setRecord_append_self u
      ⟨u, nspace, instance_uuid, commands,
       AgentOperation.current_version, ⟨none, none⟩⟩
      ⟨u, nspace, instance_uuid, commands,
       AgentOperation.current_version, ⟨some STATE_CREATED, some now⟩⟩
      store h
    have hstep : db_set_state AgentOperation.state_targets ⟨none, none⟩
        STATE_CREATED now = (⟨some STATE_CREATED, some now⟩, none) := by
      simp [db_set_state, AgentOperation.state_targets]
    simp only [AgentOperation.new, h, hcreate, hread, hstep]
    rw [hset]

/-- Witness for C9: calling `new` twice with the same uuid — the first
call creates the record in state `created`, the second returns it
unchanged. -/
theorem agentoperation_new_idempotent_witness :
    AgentOperation.new [] "op1" "ns1" "inst1" "cmds" 3 =
      ([("op1", ⟨"op1", "ns1", "inst1", "cmds", 1,
          ⟨some STATE_CREATED, some 3⟩⟩)],
       some ⟨"op1", "ns1", "inst1", "cmds", 1,
          ⟨some STATE_CREATED, some 3⟩⟩) ∧
    AgentOperation.new
        [("op1", ⟨"op1", "ns1", "inst1", "cmds", 1,
           ⟨some STATE_CREATED, some 3⟩⟩)] "op1" "other" "other" "x" 9 =
      ([("op1", ⟨"op1", "ns1", "inst1", "cmds", 1,
          ⟨some STATE_CREATED, some 3⟩⟩)],
       some ⟨"op1", "ns1", "inst1", "cmds", 1,
          ⟨some STATE_CREATED, some 3⟩⟩) := by
  constructor
  · exact (agentoperation_new_idempotent [] "op1" "ns1" "inst1" "cmds"
      3).2 (by decide)
  · exact (agentoperation_new_idempotent _ "op1" "other" "other" "x"
      9).1 _ (by decide)

/-! ## External API: network creation and instance placement -/

/-- An API error response built by `sf_api.error(status, message)`. -/
structure ApiError where
  status : ℕ
  message : String
  deriving Repr, DecidableEq

/-- Outcome of `Networks.post` as far as this model tracks it: an error
response returned before any network object exists, or the created
network's netblock. -/
inductive NetworksPostResult
  | err (e : ApiError)
  | created (netblock : String)
  deriving Repr, DecidableEq

/-- `Networks.post` (external_api/app.py lines 1420-1441).  The
netblock is validated first: `ipaddress.ip_network(netblock)` either
raises `ValueError` — the stdlib parser is an external collaborator,
modelled as `parse = none` — or yields a network whose size is
`num_addresses` (`parse = some n`); a netblock below 8 addresses is
rejected with a 400, as is an unparseable one, in both cases before
`net.Network.new` (line 1440) runs.  The namespace admin check between
validation and creation is carried as `namespaceOk`. -/
def Networks.post (netblock : String) (parse : Option ℕ)
    (namespaceOk : Bool) : NetworksPostResult :=
  match parse with
  | none => .err ⟨400, "cannot parse netblock"⟩
  | some n =>
      if n < 8 then .err ⟨400, "network is below minimum size of /29"⟩
      else if !namespaceOk then
        .err ⟨401,
          "only admins can create resources in a different namespace"⟩
      else .created netblock

/-- C10: creating a network rejects with a 400 validation error — and
before any network object is created, since the result is an error and
not a creation — every netblock the ip parser cannot parse, and every
parseable netblock with fewer than 8 addresses (smaller than a /29). -/
theorem networks_post_rejects_bad_netblocks (netblock : String)
    (parse : Option ℕ) (namespaceOk : Bool) :
    (parse = none →
      Networks.post netblock parse namespaceOk =
        .err ⟨400, "cannot parse netblock"⟩) ∧
    (∀ n, parse = some n → n < 8 →
      Networks.post netblock parse namespaceOk =
        .err ⟨400, "network is below minimum size of /29"⟩) := by
  constructor
  · intro h; simp [Networks.post, h]
  · intro n h hn; simp [Networks.post, h, hn]

/-- Witness for C10: an unparseable netblock and a /30 netblock (4
addresses) are both rejected with a 400. -/
theorem networks_post_rejects_bad_netblocks_witness :
    Networks.post "banana" none true =
      .err ⟨400, "cannot parse netblock"⟩ ∧
    Networks.post "10.0.0.0/30" (some 4) true =
      .err ⟨400, "network is below minimum size of /29"⟩ := by
  constructor
  · exact (networks_post_rejects_bad_netblocks "banana" none true).1 rfl
  · exact (networks_post_rejects_bad_netblocks "10.0.0.0/30" (some 4)
      true).2 4 rfl (by decide)

/-- The outcome of `Scheduler.place_instance` as the endpoint sees it
(modelled from the spec, section 4.3; scheduler.py is not part of the
source snapshot): an ordered candidate list on success — the first
element kept explicit because the caller takes `candidates[0]` — or one
of the two failure exceptions. -/
inductive ScheduleOutcome
  | placed (first : String) (rest : List String)
  | lowResource (msg : String)
  | candidateNotFound (msg : String)
  deriving Repr, DecidableEq

/-- Side effects the scheduling tail of `InstancesEndpoint.post`
performs. -/
inductive InstanceAction
  | addEvent (msg : String)
  | enqueueDeleteDueError (msg : String)
  | placeInstance (node : String)
  | enqueueStartTasks (node : String)
  deriving Repr, DecidableEq

/-- Result of the scheduling tail: the chosen placement or an error
response. -/
inductive SchedulePhaseResult
  | ok (placement : String)
  | err (e : ApiError)
  deriving Repr, DecidableEq

/-- The scheduling tail of `InstancesEndpoint.post`
(external_api/instance.py lines 455-500): call
`SCHEDULER.place_instance` (with `[placed_on]` as the candidate list
when the request pinned a node, in which case the pinned node is the
placement); on `LowResourceException` record an event, enqueue the
instance for deletion in an error state and return a 507; on
`CandidateNodeNotFoundException` do the same cleanup and return a 404;
on success record the placement and enqueue the start tasks on the
chosen node. -/
def instances_post_schedule (placed_on : Option String)
    (outcome : ScheduleOutcome) :
    List InstanceAction × SchedulePhaseResult :=
  match outcome with
  | .lowResource e =>
      ([.addEvent ("schedule failed, insufficient resources: " ++ e),
        .enqueueDeleteDueError "scheduling failed"],
       .err ⟨507, e⟩)
  | .candidateNotFound e =>
      ([.addEvent ("schedule failed, node not found: " ++ e),
        .enqueueDeleteDueError "scheduling failed"],
       .err ⟨404, "node not found: " ++ e⟩)
  | .placed first _rest =>
      let placement :=
        match placed_on with
        | none => first
        | some p => p
      ([.placeInstance placement, .enqueueStartTasks placement],
       .ok placement)

/-- Modelled from the spec: `Instance.enqueue_delete_due_error`
(instance.py is not part of the source snapshot).  Spec section 7:
compensating cleanup transitions the instance to an error state and
enqueues its deletion, so no half-allocated instance remains.  Returns
the instance state afterwards and whether a delete was enqueued. -/
def enqueue_delete_due_error (now : ℚ) : ObjState × Bool :=
  (⟨some STATE_ERROR, some now⟩, true)

/-- C4: when placement fails during instance creation the request is
aborted with compensating cleanup — the instance is enqueued for
deletion in an error state — and the failure surfaces as a 507 for
`LowResourceException` and a 404 for `CandidateNodeNotFoundException`;
no start tasks are enqueued and no placement is recorded on either
failure, unlike the success path. -/
theorem placement_failure_cleans_up_and_maps_status
    (placed_on : Option String) (e : String) (now : ℚ)
    (first : String) (rest : List String) :
    instances_post_schedule placed_on (.lowResource e) =
      ([.addEvent ("schedule failed, insufficient resources: " ++ e),
        .enqueueDeleteDueError "scheduling failed"],
       .err ⟨507, e⟩) ∧
    instances_post_schedule placed_on (.candidateNotFound e) =
      ([.addEvent ("schedule failed, node not found: " ++ e),
        .enqueueDeleteDueError "scheduling failed"],
       .err ⟨404, "node not found: " ++ e⟩) ∧
    enqueue_delete_due_error now = (⟨some STATE_ERROR, some now⟩, true) ∧
    instances_post_schedule none (.placed first rest) =
      ([.placeInstance first, .enqueueStartTasks first], .ok first) := by
  exact ⟨rfl, rfl, rfl, rfl⟩

/-- The address part of one entry of the `network` list of an instance
creation request: the `address` key may be missing, may hold a noneish
marker (`util_general.noneish`, an interface with no address) or may
request a fixed address.  Addresses are modelled as naturals. -/
inductive AddressSpec
  | unspecified
  | explicitNone
  | fixed (address : ℕ)
  deriving Repr, DecidableEq

/-- One entry of the `network` list of an instance creation request. -/
structure NetDesc where
  network_uuid : String
  address : AddressSpec
  deriving Repr, DecidableEq

/-- Modelled from the spec: a virtual network with its address manager
state (network.py is not part of the source snapshot) — the CIDR range
as an inclusive address interval, the reservation table mapping
addresses to holder labels (with network/broadcast/gateway pre-reserved
entries among them), the lifecycle state and the owning namespace
(spec sections 3 and 4.2). -/
structure Network where
  uuid : String
  rangeLo : ℕ
  rangeHi : ℕ
  reservations : List (ℕ × String)
  state : String
  nspace : String
  deriving Repr, DecidableEq

/-- Modelled from the spec: `is_in_range` — whether an address lies in
the network's CIDR block (spec section 4.2). -/
def Network.is_in_range (n : Network) (a : ℕ) : Bool :=
  decide (n.rangeLo ≤ a) && decide (a ≤ n.rangeHi)

/-- Modelled from the spec: `reserve(address, label)` as the endpoint
consumes it — reserving a free address records the label and succeeds,
re-reserving with the same label is an idempotent no-op success, and an
address held by a different label fails (the falsy return the endpoint
turns into its 409); the table is unchanged on failure (spec
section 4.2). -/
def Network.reserve (n : Network) (a : ℕ) (label : String) :
    Network × Bool :=
  match n.reservations.find? fun e => e.1 == a with
  | some e => (n, e.2 == label)
  | none =>
      ({ n with reservations := n.reservations ++ [(a, label)] }, true)

/-- Modelled from the spec: `reserve_random_free_address(label)` — scan
the address space in a stable deterministic order and reserve the first
free address, or report congestion (`none`) when no free address exists
(spec section 4.2; the last-allocated starting pointer does not matter
to the claims and the scan is modelled from the range start). -/
def Network.reserve_random_free_address (n : Network) (label : String) :
    Option (Network × ℕ) :=
  match ((List.range (n.rangeHi + 1 - n.rangeLo)).map
      fun i => n.rangeLo + i).find?
      (fun a => (n.reservations.find? fun e => e.1 == a).isNone) with
  | none => none
  | some a =>
      some ({ n with reservations := n.reservations ++ [(a, label)] }, a)

/-- Look a network up by uuid, as `sfnet.Network.from_db` does against
the store. -/
def findNetwork (nets : List Network) (u : String) : Option Network :=
  nets.find? fun n => n.uuid == u

/-- Persist a mutated network back into the store. -/
def setNetwork : List Network → Network → List Network
  | [], _ => []
  | m :: rest, n =>
      if m.uuid = n.uuid then n :: rest else m :: setNetwork rest n

/-- One iteration of the network validation loop of
`InstancesEndpoint.post` (external_api/instance.py lines 299-335), in
the source's check order: resolve the network reference (404 if
missing); if a fixed address is requested, reject one outside the
network's range with a 400; then reject a network that is not in the
`created` state (406) or not in the request's namespace (404). -/
def validateOne (nets : List Network) (nspace : String) (nd : NetDesc) :
    Option ApiError :=
  match findNetwork nets nd.network_uuid with
  | none => some ⟨404, "network " ++ nd.network_uuid ++ " not found"⟩
  | some n =>
      if (match nd.address with
          | .fixed a => !(n.is_in_range a)
          | _ => false) then
        some ⟨400, "network specification requests an address outside " ++
          "the range of the network"⟩
      else if n.state != STATE_CREATED then
        some ⟨406, "network " ++ n.uuid ++ " is not ready"⟩
      else if n.nspace != nspace then
        some ⟨404, "network " ++ n.uuid ++ " does not exist"⟩
      else none

/-- The network validation loop (lines 299-335), which runs before
`instance.Instance.new` (line 357): the first failing entry's error. -/
def validateNetworks (nets : List Network) (nspace : String) :
    List NetDesc → Option ApiError
  | [] => none
  | nd :: rest =>
      match validateOne nets nspace nd with
      | some e => some e
      | none => validateNetworks nets nspace rest

/-- Result of the address allocation loop: the networks with the
reservations made, the error returned if the loop aborted, and whether
`inst.enqueue_delete_due_error` ran. -/
structure AllocResult where
  nets : List Network
  error : Option ApiError
  cleanedUp : Bool
  deriving Repr, DecidableEq

/-- The IP allocation loop of `InstancesEndpoint.post`
(external_api/instance.py lines 381-453), which runs after the instance
object is created: a noneish address allocates nothing; a missing
address draws `reserve_random_free_address` (a `CongestedNetwork` is
cleaned up and returned as a 507); a fixed address is reserved with
`reserve`, and a falsy reserve result is cleaned up with
`enqueue_delete_due_error` and returned as a 409 "address in use"; a
network that vanished since validation is cleaned up and returned as a
404.  (The interface float sub-case is not modelled.) -/
def allocateNetworks (label : String) :
    List Network → List NetDesc → AllocResult
  | nets, [] => ⟨nets, none, false⟩
  | nets, nd :: rest =>
      match findNetwork nets nd.network_uuid with
      | none =>
          ⟨nets, some ⟨404, "network " ++ nd.network_uuid ++
            " not found"⟩, true⟩
      | some n =>
          match nd.address with
          | .explicitNone => allocateNetworks label nets rest
          | .unspecified =>
              match n.reserve_random_free_address label with
              | none =>
                  ⟨nets, some ⟨507, "CongestedNetwork"⟩, true⟩
              | some p => allocateNetworks label (setNetwork nets p.1) rest
          | .fixed a =>
              if (n.reserve a label).2 then
                allocateNetworks label
                  (setNetwork nets (n.reserve a label).1) rest
              else
                ⟨nets, some ⟨409, "address " ++ toString a ++
                  " in use"⟩, true⟩

/-- The overall result of the network slice of
`InstancesEndpoint.post`. -/
structure InstancesPostResult where
  error : Option ApiError
  instanceCreated : Bool
  cleanedUp : Bool
  nets : List Network
  deriving Repr, DecidableEq

/-- The network slice of `InstancesEndpoint.post`
(external_api/instance.py lines 299-453): the validation loop runs
first and an error there is returned before `instance.Instance.new`
(line 357) runs and before any allocation happens; only then is the
instance created and the allocation loop run, whose errors come after
creation and carry the compensating cleanup. -/
def instances_post_networks (nets : List Network)
    (nspace label : String) (req : List NetDesc) : InstancesPostResult :=
  match validateNetworks nets nspace req with
  | some e => ⟨some e, false, false, nets⟩
  | none =>
      let a := allocateNetworks label nets req
      ⟨a.error, true, a.cleanedUp, a.nets⟩

theorem validateOne_not_409 (nets : List Network) (nspace : String)
    (nd : NetDesc) (e : ApiError)
    (he : validateOne nets nspace nd = some e) : e.status ≠ 409 := by
  unfold validateOne at he
  cases hf : findNetwork nets nd.network_uuid <;> rw [hf] at he
  · cases Option.some.inj he
    simp
  · repeat' split at he
    all_goals
      first
        | (cases Option.some.inj he; simp)
        | simp at he

theorem validateNetworks_no_409 (nets : List Network) (nspace : String) :
    ∀ (req : List NetDesc) (e : ApiError),
      validateNetworks nets nspace req = some e → e.status ≠ 409 := by
  intro req
  induction req with
  | nil => intro e he; simp [validateNetworks] at he
  | cons nd rest ih =>
      intro e he
      simp only [validateNetworks] at he
      cases hv : validateOne nets nspace nd with
      | some e1 =>
          rw [hv] at he
          cases Option.some.inj he
          exact validateOne_not_409 nets nspace nd _ hv
      | none =>
          rw [hv] at he
          exact ih e he

theorem allocate_error_cleans_up (label : String) :
    ∀ (req : List NetDesc) (nets : List Network) (e : ApiError),
      (allocateNetworks label nets req).error = some e →
      (allocateNetworks label nets req).cleanedUp = true ∧
        e.status ≠ 400 := by
  intro req
  induction req with
  | nil => intro nets e he; simp [allocateNetworks] at he
  | cons nd rest ih =>
      intro nets e he
      cases hf : findNetwork nets nd.network_uuid with
      | none =>
          simp only [allocateNetworks, hf] at he ⊢
          cases Option.some.inj he
          exact ⟨trivial, by simp⟩
      | some n =>
          cases ha : nd.address with
          | explicitNone =>
              simp only [allocateNetworks, hf, ha] at he ⊢
              exact ih nets e he
          | unspecified =>
              cases hr : n.reserve_random_free_address label with
              | none =>
                  simp only [allocateNetworks, hf, ha, hr] at he ⊢
                  cases Option.some.inj he
                  exact ⟨trivial, by simp⟩
              | some p =>
                  simp only [allocateNetworks, hf, ha, hr] at he ⊢
                  exact ih (setNetwork nets p.1) e he
          | fixed a =>
              by_cases hb : (n.reserve a label).2 = true
              · simp only [allocateNetworks, hf, ha, hb, if_true] at he ⊢
                exact ih (setNetwork nets (n.reserve a label).1) e he
              · simp only [allocateNetworks, hf, ha,
                  Bool.not_eq_true] at he ⊢
                rw [if_neg hb] at he ⊢
                cases Option.some.inj he
                exact ⟨rfl, by simp⟩

/-- C5: during instance creation the two fixed-address failures are kept
distinct.  An error from the network validation loop — in particular the
400 for a requested address outside the target network's range, which
the loop produces whenever the referenced network resolves and the fixed
address is out of range — is returned before the instance object is
created and before any reservation is made; a reservation attempt on an
address held by a different label fails (`reserve` returns falsy and
leaves the table unchanged) and surfaces as the distinct 409 "address in
use" error, raised after the instance was created and paired with
cleanup of the partially created instance.  A 400 result therefore
implies no instance and no cleanup, while a 409 result implies a created
instance plus cleanup — the two failures are never conflated. -/
theorem fixed_address_errors_not_conflated (nets : List Network)
    (nspace label : String) (req : List NetDesc) :
    (∀ e, validateNetworks nets nspace req = some e →
      instances_post_networks nets nspace label req =
        ⟨some e, false, false, nets⟩) ∧
    (∀ e, (instances_post_networks nets nspace label req).error =
        some e → e.status = 400 →
      (instances_post_networks nets nspace label req).instanceCreated =
          false ∧
        (instances_post_networks nets nspace label req).cleanedUp =
          false ∧
        (instances_post_networks nets nspace label req).nets = nets) ∧
    (∀ e, (instances_post_networks nets nspace label req).error =
        some e → e.status = 409 →
      (instances_post_networks nets nspace label req).instanceCreated =
          true ∧
        (instances_post_networks nets nspace label req).cleanedUp =
          true) ∧
    (∀ (nd : NetDesc) (n : Network) (a : ℕ),
      findNetwork nets nd.network_uuid = some n →
      nd.address = .fixed a → n.is_in_range a = false →
      validateOne nets nspace nd =
        some ⟨400, "network specification requests an address outside " ++
          "the range of the network"⟩) ∧
    (∀ (n : Network) (a : ℕ) (l0 : String),
      (n.reservations.find? fun v => v.1 == a) = some (a, l0) →
      l0 ≠ label → n.reserve a label = (n, false)) := by
  refine ⟨?_, ?_, ?_, ?_, ?_⟩
  · intro e he
    simp [instances_post_networks, he]
  · intro e he h400
    cases hv : validateNetworks nets nspace req with
    | some e1 =>
        simp only [instances_post_networks, hv] at he ⊢
        exact ⟨trivial, trivial, trivial⟩
    | none =>
        simp only [instances_post_networks, hv] at he
        exact absurd h400 (allocate_error_cleans_up label req nets e he).2
  · intro e he h409
    cases hv : validateNetworks nets nspace req with
    | some e1 =>
        simp only [instances_post_networks, hv] at he
        cases Option.some.inj he
        exact absurd h409 (validateNetworks_no_409 nets nspace req _ hv)
    | none =>
        simp only [instances_post_networks, hv] at he ⊢
        exact ⟨trivial, (allocate_error_cleans_up label req nets e he).1⟩
  · intro nd n a hf ha hr
    simp [validateOne, hf, ha, hr]
  · intro n a l0 hfind hne
    simp [Network.reserve, hfind, hne]

/-- The concrete network behind the C5 witness: CIDR range 10-20, the
address 12 already reserved by another label. -/
def demoNets : List Network :=
  [⟨"net1", 10, 20, [(12, "other")], STATE_CREATED, "ns1"⟩]

/-- Witness for C5: requesting the out-of-range address 25 is rejected
with no instance created, no cleanup and no reservation; requesting the
already-reserved address 12 passes validation but fails reservation,
after the instance was created and with cleanup enqueued. -/
theorem fixed_address_errors_not_conflated_witness :
    ((instances_post_networks demoNets "ns1" "label1"
        [⟨"net1", .fixed 25⟩]).instanceCreated = false ∧
      (instances_post_networks demoNets "ns1" "label1"
        [⟨"net1", .fixed 25⟩]).cleanedUp = false ∧
      (instances_post_networks demoNets "ns1" "label1"
        [⟨"net1", .fixed 25⟩]).nets = demoNets) ∧
    ((instances_post_networks demoNets "ns1" "label1"
        [⟨"net1", .fixed 12⟩]).instanceCreated = true ∧
      (instances_post_networks demoNets "ns1" "label1"
        [⟨"net1", .fixed 12⟩]).cleanedUp = true) := by
  constructor
  · exact (fixed_address_errors_not_conflated demoNets "ns1" "label1"
      [⟨"net1", .fixed 25⟩]).2.1
      ⟨400, "network specification requests an address outside " ++
        "the range of the network"⟩ (by decide) rfl
  · exact (fixed_address_errors_not_conflated demoNets "ns1" "label1"
      [⟨"net1", .fixed 12⟩]).2.2.1
      ⟨409, "address " ++ toString 12 ++ " in use"⟩ (by decide) rfl

/-! ## On-disk layout of the event store -/

/-- The zero padding of python's `'%04d'`/`'%02d'` formats: lead the
decimal digits with zeros up to the width. -/
def padNum (width n : ℕ) : String :=
  ⟨List.replicate (width - (toString n).length) (Char.ofNat 48)⟩ ++
    toString n

/-- The chunk name `'%04d%02d' % (year, month)` (eventlog.py line
240). -/
def chunkLabel (year month : ℕ) : String :=
  padNum 4 year ++ padNum 2 month

/-- `_shard_db_path(objtype, objuuid)` (eventlog.py lines 127-130):
`os.path.join(config.STORAGE_PATH, 'events', objtype, objuuid[0:2])`,
kept as path components. -/
def shard_db_path (storage objtype objuuid : String) : List String :=
  [storage, "events", objtype, objuuid.take 2]

/-- The monthly chunk file name `self.objuuid + '.' + self.chunk`
(eventlog.py line 248). -/
def chunkFileName (objuuid : String) (year month : ℕ) : String :=
  objuuid ++ "." ++ chunkLabel year month

/-- `EventLogChunk.dbpath` (eventlog.py lines 247-248). -/
def EventLogChunk.dbpath (storage objtype objuuid : String)
    (year month : ℕ) : List String :=
  shard_db_path storage objtype objuuid ++
    [chunkFileName objuuid year month]

/-- The object's lock file `'%s.lock' % self.objuuid`, kept in the shard
directory (eventlog.py lines 149-150 and 203). -/
def lockFileName (objuuid : String) : String := objuuid ++ ".lock"

/-- The lock file path used by `EventLog`. -/
def EventLog.lockpath (storage objtype objuuid : String) : List String :=
  shard_db_path storage objtype objuuid ++ [lockFileName objuuid]

/-- The per-entry renames of `upgrade_data_store` (eventlog.py lines
95-112): a two-character entry name would clash with its own shard
directory, so the entry is first renamed aside with a `.mv` suffix and
the directory is then created; either way the entry's data ends up in
its shard directory as `<name>.202303` with its lock as `<name>.lock`.
Returns (the name the data file bears while the directory is made, the
final chunk file path, the final lock file path). -/
def upgradeEntryMoves (storage objtype ent : String) :
    String × List String × List String :=
  ((if ent.length = 2 then ent ++ ".mv" else ent),
   shard_db_path storage objtype ent ++ [ent ++ ".202303"],
   shard_db_path storage objtype ent ++ [ent ++ ".lock"])

theorem str_length_data (s : String) : s.length = s.data.length := rfl

theorem str_length_append (a b : String) :
    (a ++ b).length = a.length + b.length := by
  rw [str_length_data, str_length_data, str_length_data,
    String.data_append, List.length_append]

theorem padNum_length (w n : ℕ) : w ≤ (padNum w n).length := by
  rw [padNum, str_length_append]
  have h1 : (⟨List.replicate (w - (toString n).length)
      (Char.ofNat 48)⟩ : String).length =
      w - (toString n).length := by
    rw [str_length_data]
    exact List.length_replicate _ _
  omega

theorem chunkLabel_length (y m : ℕ) : 6 ≤ (chunkLabel y m).length := by
  rw [chunkLabel, str_length_append]
  have h1 := padNum_length 4 y
  have h2 := padNum_length 2 m
  omega

theorem str_length_take_two (s : String) :
    (s.take 2).length = min 2 s.length := by
  rw [str_length_data, String.data_take, List.length_take,
    str_length_data]

/-- C8: event log data for an object lives in a shard subdirectory named
by the first two characters of the uuid, one file per calendar month
named `<uuid>.<YYYYMM>` plus one lock file `<uuid>.lock`; none of those
file names can collide with the shard directory name, and a
two-character uuid is disambiguated during the data-store migration with
a transient `.mv` suffix (distinct from the plain name) so its files
never collide with the shard directory name itself. -/
theorem event_store_layout (storage objtype objuuid : String)
    (year month : ℕ) :
    EventLogChunk.dbpath storage objtype objuuid year month =
      [storage, "events", objtype, objuuid.take 2,
       chunkFileName objuuid year month] ∧
    EventLog.lockpath storage objtype objuuid =
      [storage, "events", objtype, objuuid.take 2,
       lockFileName objuuid] ∧
    chunkFileName objuuid year month ≠ lockFileName objuuid ∧
    chunkFileName objuuid year month ≠ objuuid.take 2 ∧
    lockFileName objuuid ≠ objuuid.take 2 ∧
    (objuuid.length = 2 →
      (upgradeEntryMoves storage objtype objuuid).1 = objuuid ++ ".mv" ∧
      objuuid ++ ".mv" ≠ objuuid ∧
      (upgradeEntryMoves storage objtype objuuid).2.1 =
        [storage, "events", objtype, objuuid.take 2,
         objuuid ++ ".202303"]) := by
  have hdot : ("." : String).length = 1 := rfl
  have hlock : (".lock" : String).length = 5 := rfl
  have hmv : (".mv" : String).length = 3 := rfl
  have hlabel := chunkLabel_length year month
  have htake := str_length_take_two objuuid
  refine ⟨rfl, rfl, ?_, ?_, ?_, ?_⟩
  · intro h
    have := congrArg String.length h
    rw [chunkFileName, lockFileName, str_length_append,
      str_length_append, str_length_append, hdot, hlock] at this
    omega
  · intro h
    have := congrArg String.length h
    rw [chunkFileName, str_length_append, str_length_append, hdot,
      htake] at this
    omega
  · intro h
    have := congrArg String.length h
    rw [lockFileName, str_length_append, hlock, htake] at this
    omega
  · intro h2
    refine ⟨by simp [upgradeEntryMoves, h2], ?_, rfl⟩
    intro h
    have := congrArg String.length h
    rw [str_length_append, hmv] at this
    omega

/-- Witness for C8: the migration of the two-character name `ab` moves
its data aside as `ab.mv`, and its final chunk file sits inside the
shard directory `ab` under a name that cannot collide with it. -/
theorem event_store_layout_witness :
    (upgradeEntryMoves "/srv/sf" "namespace" "ab").1 =
      ("ab" : String) ++ ".mv" ∧
    ("ab" : String) ++ ".mv" ≠ "ab" ∧
    (upgradeEntryMoves "/srv/sf" "namespace" "ab").2.1 =
      ["/srv/sf", "events", "namespace", ("ab" : String).take 2,
       ("ab" : String) ++ ".202303"] := by
  exact (event_store_layout "/srv/sf" "namespace" "ab" 2023
    3).2.2.2.2.2 (by decide)

end ShakenFist
